import Mathlib

/-!
Verification of the email-template verifier service (`src/main.py`) against
its natural-language specification.

The single endpoint `verify_template` fetches an HTML document, parses it
with BeautifulSoup, runs four heuristic checks (test-content detection,
image/text ratio, global link liveness, footer completeness) and combines
them into one verdict.  The development below is a shallow embedding of that
pipeline:

* the parsed BeautifulSoup view is an explicit `Node` tree (element tag,
  attribute list, children); `descendants`, `findAllTag`, `findTag?`,
  `attrVal` and `getText` model the `find_all` / `find` / `get_text`
  operations used by the handler;
* the network is an oracle: the outcome of `requests.head` on a URL is a
  `ProbeResult` (a status code, or a raised request exception), and the
  outcome of the primary `requests.get` is a `FetchOutcome`;
* Python floats are modelled as exact rationals, `float('inf')` as the
  dedicated constructor `RatioVal.inf`;
* the compiled pattern `ADDRESS_REGEX` is modelled by an executable
  backtracking matcher over an explicit abstract syntax of the concrete
  pattern `\d{1,5}\s+\w+(\s+\w+)*,\s*\w+(\s+\w+)*,\s*\w{2,}\s*\d{5,}`
  (its `re.IGNORECASE` flag is inert: the pattern contains no cased
  literal).
-/

namespace EmailVerifier

/-- Outcome of one `requests.head(href, allow_redirects=True, timeout=5)`
call: either a response with its status code, or a raised
`requests.RequestException` (timeout, DNS failure, connection error, ...). -/
inductive ProbeResult where
  | status (code : Nat)
  | exn
deriving DecidableEq

/-- A probed link is recorded as broken by the global validator when the
probe returns a status of at least 400 or raises (main.py lines 54-58). -/
def probeBroken : ProbeResult → Bool
  | .status n => 400 ≤ n
  | .exn => true

/-- A probed footer link counts as alive when the probe returns a status
below 400; a raised exception is swallowed (main.py lines 72-77). -/
def probeAlive : ProbeResult → Bool
  | .status n => n < 400
  | .exn => false

/-- Parsed HTML view: the node tree BeautifulSoup builds.  An element node
carries its (lowercased) tag name, its attribute list and its children in
document order; a text node carries its string. -/
inductive Node where
  | text (s : String)
  | element (tag : String) (attrs : List (String × String)) (children : List Node)

mutual

/-- All descendants of a node in document order (pre-order), the node itself
excluded: the nodes `find_all` and `find` search. -/
def Node.descendants : Node → List Node
  | .text _ => []
  | .element _ _ cs => Node.descList cs

/-- Descendant list of a sibling list: each sibling followed by its own
descendants, in document order. -/
def Node.descList : List Node → List Node
  | [] => []
  | c :: rest => c :: (Node.descendants c ++ Node.descList rest)

end

/-- Value of the named attribute on an element (first binding wins), `none`
on a text node or when the attribute is absent: models `tag[name]` and
attribute presence. -/
def attrVal (n : Node) (a : String) : Option String :=
  match n with
  | .text _ => none
  | .element _ attrs _ => (attrs.find? (fun p => p.1 == a)).map (fun p => p.2)

/-- Whether a node is an element with the given tag name. -/
def isTag (t : String) (n : Node) : Bool :=
  match n with
  | .text _ => false
  | .element tg _ _ => tg == t

/-- Whether the node carries an `href` attribute: the `href=True` filter of
`find_all`. -/
def hasHref (n : Node) : Bool :=
  (attrVal n "href").isSome

/-- Model of `soup.find_all(t)`: all descendant elements with the given tag
name, in document order. -/
def findAllTag (t : String) (n : Node) : List Node :=
  n.descendants.filter (fun d => isTag t d)

/-- Model of `soup.find(t)`: the first descendant element with the given tag
name, or `none`. -/
def findTag? (t : String) (n : Node) : Option Node :=
  (findAllTag t n).head?

/-- Model of `find_all("a", href=True)` (main.py lines 47 and 67): the
descendant `<a>` elements that carry an `href` attribute, in document
order. -/
def anchorElems (n : Node) : List Node :=
  n.descendants.filter (fun d => isTag "a" d && hasHref d)

/-- The `href` values of those anchors, each preserved exactly as written
(the loop variable `href = link['href']`). -/
def anchorHrefs (n : Node) : List String :=
  (anchorElems n).filterMap (fun d => attrVal d "href")

/-- The string of a text node. -/
def textOf? : Node → Option String
  | .text s => some s
  | .element _ _ _ => none

/-- Whitespace characters in the sense of Python `str.strip` and the class
`\s`. -/
def isWs (c : Char) : Bool :=
  c == ' ' || c == '\t' || c == '\n' || c == '\r' || c == '\x0b' || c == '\x0c'

/-- Model of `str.strip()`: surrounding whitespace removed. -/
def strTrim (s : String) : String :=
  String.mk (((s.toList.dropWhile isWs).reverse.dropWhile isWs).reverse)

/-- Model of `str.lower()` (ASCII range of the inputs considered). -/
def lowerStr (s : String) : String :=
  String.mk (s.toList.map Char.toLower)

/-- Join a list of strings with single spaces: the `separator=" "` join. -/
def joinSpace : List String → String
  | [] => ""
  | [x] => x
  | x :: y :: rest => x ++ " " ++ joinSpace (y :: rest)

/-- Model of the Python slice `s[:n]`, by characters. -/
def strTake (s : String) (n : Nat) : String :=
  String.mk (s.toList.take n)

/-- Model of `get_text(separator=" ", strip=True)`: every text node of the
subtree in document order, each stripped of surrounding whitespace, empty
strings dropped, the rest joined with single spaces. -/
def getText (n : Node) : String :=
  joinSpace
    (((n.descendants.filterMap textOf?).map strTrim).filter (fun s => !s.toList.isEmpty))

/-- Rendering of an attribute list inside a start tag. -/
def attrText (attrs : List (String × String)) : String :=
  attrs.foldl (fun acc p => acc ++ " " ++ p.1 ++ "=\"" ++ p.2 ++ "\"") ""

mutual

/-- Model of `str(tag)`: the serialized markup of a node, attributes
included.  Only its length is consumed (the image size proxy
`len(str(img))`, main.py line 38). -/
def Node.serialize : Node → String
  | .text s => s
  | .element tg attrs cs =>
      "<" ++ tg ++ attrText attrs ++ ">" ++ Node.serializeList cs ++ "</" ++ tg ++ ">"

/-- Serialization of a sibling list in document order. -/
def Node.serializeList : List Node → String
  | [] => ""
  | c :: rest => Node.serialize c ++ Node.serializeList rest

end

/-- Substring test over character lists: some suffix of the haystack starts
with the needle. -/
def substrAux (pat : List Char) : List Char → Bool
  | [] => pat.isEmpty
  | c :: rest => ((c :: rest).take pat.length == pat) || substrAux pat rest

/-- Model of the Python containment test `pat in hay` on strings: literal
substring containment, no word boundaries. -/
def strContains (hay pat : String) : Bool :=
  substrAux pat.toList hay.toList

/-- Model of `s.startswith(pre)`. -/
def strStarts (s pre : String) : Bool :=
  s.toList.take pre.toList.length == pre.toList

/-- An href is probed at all only when it starts with one of the two
absolute schemes (main.py lines 52 and 70). -/
def httpHref (h : String) : Bool :=
  strStarts h "http://" || strStarts h "https://"

/-- The keyword list `TEST_KEYWORDS` of main.py lines 13-16. -/
def TEST_KEYWORDS : List String :=
  ["test", "dummy", "lorem ipsum", "sample template",
   "placeholder", "example", "this is a test"]

/-- Abstract syntax of the regex fragments `ADDRESS_REGEX` is built from:
a literal character, a character-class repetition `p{lo,hi}` (`hi = none`
meaning unbounded), and a starred group of a sequence. -/
inductive RE where
  | ch (c : Char)
  | rep (p : Char → Bool) (lo : Nat) (hi : Option Nat)
  | star (body : List RE)

/-- Backtracking matcher: does the sequence `rs` match some prefix of `cs`?
Fuel bounds the recursion depth; every alternative of the Python engine is
explored, so with enough fuel the result is match existence, exactly what a
boolean use of `re.search` observes at one start position. -/
def seqMatch : Nat → List RE → List Char → Bool
  | _, [], _ => true
  | 0, _ :: _, _ => false
  | fuel + 1, RE.ch c :: rest, cs =>
    match cs with
    | [] => false
    | d :: cs' => d == c && seqMatch fuel rest cs'
  | fuel + 1, RE.rep p lo hi :: rest, cs =>
    match lo with
    | n + 1 =>
      match cs with
      | [] => false
      | c :: cs' => p c && seqMatch fuel (RE.rep p n (Option.map (fun m => m - 1) hi) :: rest) cs'
    | 0 =>
      match hi with
      | some 0 => seqMatch fuel rest cs
      | _ =>
        seqMatch fuel rest cs ||
          (match cs with
           | [] => false
           | c :: cs' => p c && seqMatch fuel (RE.rep p 0 (Option.map (fun m => m - 1) hi) :: rest) cs')
  | fuel + 1, RE.star body :: rest, cs =>
    seqMatch fuel rest cs || seqMatch fuel (body ++ RE.star body :: rest) cs

/-- Try a match at every start position, leftmost first. -/
def searchAux (rs : List RE) : List Char → Bool
  | [] => seqMatch 80 rs []
  | c :: cs => seqMatch (40 * (cs.length + 3)) rs (c :: cs) || searchAux rs cs

/-- Model of `pattern.search(s)` used as a boolean: does the pattern match
anywhere in `s`? -/
def reSearch (rs : List RE) (s : String) : Bool :=
  searchAux rs s.toList

/-- The class `\d` (ASCII range of the inputs considered). -/
def digitChar (c : Char) : Bool := c.isDigit

/-- The class `\s`. -/
def spaceChar (c : Char) : Bool :=
  c == ' ' || c == '\t' || c == '\n' || c == '\r' || c == '\x0b' || c == '\x0c'

/-- The class `\w` (ASCII range of the inputs considered). -/
def wordChar (c : Char) : Bool :=
  c.isAlphanum || c == '_'

/-- The compiled pattern of main.py lines 19-20,
`\d{1,5}\s+\w+(\s+\w+)*,\s*\w+(\s+\w+)*,\s*\w{2,}\s*\d{5,}`.  The
`re.IGNORECASE` flag changes nothing: no fragment of the pattern is a cased
literal. -/
def ADDRESS_REGEX : List RE :=
  [RE.rep digitChar 1 (some 5), RE.rep spaceChar 1 none, RE.rep wordChar 1 none,
   RE.star [RE.rep spaceChar 1 none, RE.rep wordChar 1 none],
   RE.ch ',', RE.rep spaceChar 0 none, RE.rep wordChar 1 none,
   RE.star [RE.rep spaceChar 1 none, RE.rep wordChar 1 none],
   RE.ch ',', RE.rep spaceChar 0 none, RE.rep wordChar 2 none,
   RE.rep spaceChar 0 none, RE.rep digitChar 5 none]

/-- Value of the `image_text_ratio` field: a Python float holding either an
exact quotient or `float('inf')` (main.py lines 41-44). -/
inductive RatioVal where
  | inf
  | val (q : ℚ)
deriving DecidableEq

/-- The balance predicate `0.1 <= image_text_ratio <= 2.0` (main.py line
93); on `float('inf')` the chained comparison is false. -/
def ratioOk : RatioVal → Bool
  | .inf => false
  | .val q => decide ((1 : ℚ) / 10 ≤ q) && decide (q ≤ (2 : ℚ))

/-- The global link-validation loop of main.py lines 49-58: walk the hrefs
in document order; an href outside the two absolute schemes is skipped
entirely; a probed href is appended when its probe is broken; no probe
outcome stops the walk. -/
def collectBroken (probe : String → ProbeResult) : List String → List String
  | [] => []
  | h :: rest =>
    if httpHref h then
      if probeBroken (probe h) then h :: collectBroken probe rest
      else collectBroken probe rest
    else collectBroken probe rest

/-- The footer link loop of main.py lines 68-77: walk the footer hrefs in
document order, skip non-absolute ones, succeed at the first probe with
status below 400, swallow probe exceptions and keep scanning. -/
def footerScan (probe : String → ProbeResult) : List String → Bool
  | [] => false
  | h :: rest =>
    if httpHref h then
      match probe h with
      | .status n => if n < 400 then true else footerScan probe rest
      | .exn => footerScan probe rest
    else footerScan probe rest

/-- The absolute (http/https) hrefs of a footer's own anchors, in document
order. -/
def footerHttpHrefs (f : Node) : List String :=
  (anchorHrefs f).filter (fun h => httpHref h)

/-- Verdict enumeration of the response. -/
inductive Verdict where
  | pass
  | warning
  | fail
deriving DecidableEq

/-- The `checks` object of the response (main.py lines 90-98). -/
structure Checks where
  is_test_template : Bool
  image_text_ratio : RatioVal
  image_text_ratio_ok : Bool
  broken_links : List String
  all_links_valid : Bool
  footer_link_valid : Bool
  footer_address_found : Bool

/-- The full success payload (main.py lines 87-120): every check field, the
content length, the preview, the verdict and its message. -/
structure VerificationResult where
  checks : Checks
  content_length : Nat
  preview_snippet : String
  verification : Verdict
  message : String

/-- Body of `verify_template` once the primary fetch has succeeded (main.py
lines 29-120): the four heuristics over the parsed document `soup` of the
fetched text `html`, combined by the fixed verdict precedence. -/
def runChecks (probe : String → ProbeResult) (html : String) (soup : Node) :
    VerificationResult :=
  let text_content : String := lowerStr (getText soup)
  let is_test_template : Bool := TEST_KEYWORDS.any (fun k => strContains text_content k)
  let total_text_len : Nat := text_content.length
  let total_img_len : Nat :=
    ((findAllTag "img" soup).map (fun img => (Node.serialize img).length)).sum
  let image_text_ratio : RatioVal :=
    if total_text_len = 0 then RatioVal.inf
    else RatioVal.val ((total_img_len : ℚ) / (total_text_len : ℚ))
  let broken_links : List String := collectBroken probe (anchorHrefs soup)
  let footer : Option Node := findTag? "footer" soup
  let footer_link_valid : Bool :=
    match footer with
    | some f => footerScan probe (anchorHrefs f)
    | none => false
  let footer_address_found : Bool :=
    match footer with
    | some f => reSearch ADDRESS_REGEX (getText f)
    | none => false
  let checks : Checks :=
    { is_test_template := is_test_template
      image_text_ratio := image_text_ratio
      image_text_ratio_ok := ratioOk image_text_ratio
      broken_links := broken_links
      all_links_valid := broken_links.isEmpty
      footer_link_valid := footer_link_valid
      footer_address_found := footer_address_found }
  let vm : Verdict × String :=
    if checks.is_test_template then
      (Verdict.fail, "The template appears to be a test/dummy template.")
    else if !checks.all_links_valid then
      (Verdict.fail, "One or more clickable links are broken.")
    else if !checks.footer_link_valid || !checks.footer_address_found then
      (Verdict.fail, "Footer is missing a valid clickable website link or full company address.")
    else if !checks.image_text_ratio_ok then
      (Verdict.warning, "Image to text ratio is not balanced.")
    else
      (Verdict.pass, "Template passed all basic standard checks.")
  { checks := checks
    content_length := html.length
    preview_snippet := strTake html 300
    verification := vm.1
    message := vm.2 }

/-- Outcome of the primary `requests.get(url, timeout=10)`: a response with
its status code and body text, or a raised `requests.RequestException`. -/
inductive FetchOutcome where
  | networkError (cause : String)
  | response (statusCode : Nat) (text : String)

/-- The two terminal errors of the endpoint: the `HTTPException(400, ...)`
of main.py line 27, carrying the upstream status code in its detail, and the
`HTTPException(500, ...)` of main.py line 123, carrying the cause of the
network failure. -/
inductive VerifyError where
  | fetchStatusError (upstream : Nat)
  | fetchNetworkError (cause : String)
deriving DecidableEq

/-- The whole endpoint `verify_template` (main.py lines 23-123), with
BeautifulSoup abstracted as the total parse function `parse` and the probe
network as the oracle `probe`.  A network failure of the primary fetch is
caught by the outer handler; a non-200 status raises the status error; a
200 response runs the checks to completion. -/
def verify_template (parse : String → Node) (probe : String → ProbeResult) :
    FetchOutcome → Except VerifyError VerificationResult
  | .networkError cause => .error (.fetchNetworkError cause)
  | .response code text =>
    if code = 200 then .ok (runChecks probe text (parse text))
    else .error (.fetchStatusError code)

/-- Probe oracle answering 200 to everything. -/
def probeOk : String → ProbeResult := fun _ => ProbeResult.status 200

/-- Probe oracle answering 404 to everything. -/
def probeDead : String → ProbeResult := fun _ => ProbeResult.status 404

/-- Document that is simultaneously a test template and carries a broken
absolute link (no footer): the precedence scenario of the spec. -/
def exDocTestBroken : Node :=
  Node.element "[document]" []
    [Node.element "body" []
      [Node.text "This is a test",
       Node.element "a" [("href", "http://bad.example/")] [Node.text "click"]]]

/-- Document whose text is "Latest news": the embedded-keyword scenario. -/
def exDocLatest : Node :=
  Node.element "[document]" []
    [Node.element "p" [] [Node.text "Latest news"]]

/-- Document whose only href sits on a `<link>` element, not an `<a>`
element, and whose probe target is dead. -/
def exDocLinkElem : Node :=
  Node.element "[document]" []
    [Node.element "head" []
      [Node.element "link" [("href", "https://dead.example/style")] []],
     Node.element "body" [] [Node.text "hello"]]

/-- Document with no footer element, no keywords and no links. -/
def exDocPlain : Node :=
  Node.element "[document]" []
    [Node.element "p" [] [Node.text "hello"]]

/-- Footer whose only link is absolute and (under `probeDead`) dead. -/
def exFooterDead : Node :=
  Node.element "footer" []
    [Node.element "a" [("href", "http://dead.example/")] [Node.text "site"]]

/-- Test-template document containing `exFooterDead`: its footer link is
dead, yet rule 1 preempts the broken-links verdict. -/
def exDocTestDeadFooter : Node :=
  Node.element "[document]" []
    [Node.element "body" []
      [Node.text "This is a test", exFooterDead]]

/-- Keyword-free document containing `exFooterDead`. -/
def exDocHelloDeadFooter : Node :=
  Node.element "[document]" []
    [Node.element "body" []
      [Node.text "hello", exFooterDead]]

/-- Modelled from the spec: the anchor collection its parser section
describes, "every element with an href attribute", against which the
code's `<a>`-only collection is compared. -/
def specAnchorElems (n : Node) : List Node :=
  n.descendants.filter (fun d => hasHref d)

/-- The href values of the spec's anchor collection. -/
def specAnchorHrefs (n : Node) : List String :=
  (specAnchorElems n).filterMap (fun d => attrVal d "href")

/-! Field-level characterizations of `runChecks`: each response field equals
the expression the handler computes for it. -/

theorem runChecks_is_test (probe : String → ProbeResult) (html : String) (soup : Node) :
    (runChecks probe html soup).checks.is_test_template
      = TEST_KEYWORDS.any (fun k => strContains (lowerStr (getText soup)) k) := rfl

theorem runChecks_ratio (probe : String → ProbeResult) (html : String) (soup : Node) :
    (runChecks probe html soup).checks.image_text_ratio
      = (if (lowerStr (getText soup)).length = 0 then RatioVal.inf
         else RatioVal.val
           ((((findAllTag "img" soup).map (fun img => (Node.serialize img).length)).sum : ℚ)
             / ((lowerStr (getText soup)).length : ℚ))) := rfl

theorem runChecks_ratio_ok (probe : String → ProbeResult) (html : String) (soup : Node) :
    (runChecks probe html soup).checks.image_text_ratio_ok
      = ratioOk ((runChecks probe html soup).checks.image_text_ratio) := rfl

theorem runChecks_broken (probe : String → ProbeResult) (html : String) (soup : Node) :
    (runChecks probe html soup).checks.broken_links
      = collectBroken probe (anchorHrefs soup) := rfl

theorem runChecks_all_valid (probe : String → ProbeResult) (html : String) (soup : Node) :
    (runChecks probe html soup).checks.all_links_valid
      = (runChecks probe html soup).checks.broken_links.isEmpty := rfl

theorem runChecks_footer_valid (probe : String → ProbeResult) (html : String) (soup : Node) :
    (runChecks probe html soup).checks.footer_link_valid
      = (match findTag? "footer" soup with
         | some f => footerScan probe (anchorHrefs f)
         | none => false) := rfl

theorem runChecks_footer_addr (probe : String → ProbeResult) (html : String) (soup : Node) :
    (runChecks probe html soup).checks.footer_address_found
      = (match findTag? "footer" soup with
         | some f => reSearch ADDRESS_REGEX (getText f)
         | none => false) := rfl

theorem runChecks_verdict (probe : String → ProbeResult) (html : String) (soup : Node) :
    ((runChecks probe html soup).verification, (runChecks probe html soup).message)
      = (if (runChecks probe html soup).checks.is_test_template then
           (Verdict.fail, "The template appears to be a test/dummy template.")
         else if !(runChecks probe html soup).checks.all_links_valid then
           (Verdict.fail, "One or more clickable links are broken.")
         else if !(runChecks probe html soup).checks.footer_link_valid
             || !(runChecks probe html soup).checks.footer_address_found then
           (Verdict.fail, "Footer is missing a valid clickable website link or full company address.")
         else if !(runChecks probe html soup).checks.image_text_ratio_ok then
           (Verdict.warning, "Image to text ratio is not balanced.")
         else
           (Verdict.pass, "Template passed all basic standard checks.")) := rfl

/-- The global link loop collects exactly the absolute hrefs whose probe is
broken, keeping document order and duplicates. -/
theorem collectBroken_eq_filter (probe : String → ProbeResult) (hs : List String) :
    collectBroken probe hs
      = (hs.filter (fun h => httpHref h)).filter (fun h => probeBroken (probe h)) := by
  induction hs with
  | nil => rfl
  | cons h rest ih =>
    cases hh : httpHref h <;> cases hb : probeBroken (probe h) <;>
      simp [collectBroken, List.filter_cons, hh, hb, ih]

/-- One step of the footer scan: succeed at an alive absolute href,
otherwise keep scanning (a skipped scheme, a dead status and a swallowed
exception all continue identically). -/
theorem footerScan_cons (probe : String → ProbeResult) (h : String) (rest : List String) :
    footerScan probe (h :: rest)
      = (if httpHref h && probeAlive (probe h) then true else footerScan probe rest) := by
  cases hh : httpHref h
  · simp [footerScan, hh]
  · cases hp : probe h with
    | status n =>
      by_cases hn : n < 400 <;> simp [footerScan, hh, hp, probeAlive, hn]
    | exn => simp [footerScan, hh, hp, probeAlive]

/-- The footer scan returns true exactly when some absolute href in the list
probes alive. -/
theorem footerScan_eq_any (probe : String → ProbeResult) (hs : List String) :
    footerScan probe hs = hs.any (fun h => httpHref h && probeAlive (probe h)) := by
  induction hs with
  | nil => rfl
  | cons h rest ih =>
    rw [footerScan_cons, List.any_cons, ih]
    cases httpHref h && probeAlive (probe h) <;> simp

/-- An absolute href with a broken probe that occurs in the list occurs in
the collected broken list. -/
theorem mem_collectBroken (probe : String → ProbeResult) (hs : List String) (h : String)
    (hmem : h ∈ hs) (hhttp : httpHref h = true) (hbad : probeBroken (probe h) = true) :
    h ∈ collectBroken probe hs := by
  rw [collectBroken_eq_filter]
  exact List.mem_filter.2 ⟨List.mem_filter.2 ⟨hmem, hhttp⟩, hbad⟩

mutual

/-- Descendants are transitive: a descendant of a descendant of `c` is a
descendant of `c`. -/
theorem descendants_trans : ∀ (c a b : Node),
    b ∈ Node.descendants c → a ∈ Node.descendants b → a ∈ Node.descendants c
  | .text _, _, _, hb, _ => absurd hb (by simp [Node.descendants])
  | .element _ _ cs, a, b, hb, ha => descList_trans cs a b hb ha

/-- Transitivity through a sibling list. -/
theorem descList_trans : ∀ (cs : List Node) (a b : Node),
    b ∈ Node.descList cs → a ∈ Node.descendants b → a ∈ Node.descList cs
  | [], _, _, hb, _ => absurd hb (by simp [Node.descList])
  | c :: rest, a, b, hb, ha => by
    simp only [Node.descList, List.mem_cons, List.mem_append] at hb ⊢
    rcases hb with rfl | hb | hb
    · exact Or.inr (Or.inl ha)
    · exact Or.inr (Or.inl (descendants_trans c a b hb ha))
    · exact Or.inr (Or.inr (descList_trans rest a b hb ha))

end

/-- The element `find` returns is a descendant of the searched node. -/
theorem findTag?_mem (t : String) (s f : Node) (hf : findTag? t s = some f) :
    f ∈ Node.descendants s := by
  unfold findTag? at hf
  cases hl : findAllTag t s with
  | nil => rw [hl] at hf; cases hf
  | cons x xs =>
    rw [hl] at hf
    simp only [List.head?_cons, Option.some.injEq] at hf
    have hx : x ∈ findAllTag t s := by rw [hl]; exact List.mem_cons_self _ _
    rw [hf] at hx
    exact List.mem_of_mem_filter hx

/-- Every anchor href of the footer element is also an anchor href of the
whole document: the global validator sees every link the footer validator
sees. -/
theorem anchorHrefs_footer_sub (soup f : Node) (hf : findTag? "footer" soup = some f)
    (h : String) (hm : h ∈ anchorHrefs f) : h ∈ anchorHrefs soup := by
  obtain ⟨n, hn, hna⟩ := List.mem_filterMap.1 hm
  have hnf := List.mem_filter.1 hn
  have hfs : f ∈ Node.descendants soup := findTag?_mem "footer" soup f hf
  have hns : n ∈ Node.descendants soup := descendants_trans soup n f hfs hnf.1
  exact List.mem_filterMap.2 ⟨n, List.mem_filter.2 ⟨hns, hnf.2⟩, hna⟩

/-- C1: for every successfully fetched document the verdict combiner applies
exactly one of the five rules in fixed precedence order, producing the five
fixed verdict/message pairs; in particular the concrete document that is
simultaneously a test template and has a broken global link yields the
test-template message, not the link message. -/
theorem verdict_combiner_precedence :
    (∀ (probe : String → ProbeResult) (html : String) (soup : Node),
      ((runChecks probe html soup).verification, (runChecks probe html soup).message)
        = (if (runChecks probe html soup).checks.is_test_template then
             (Verdict.fail, "The template appears to be a test/dummy template.")
           else if !(runChecks probe html soup).checks.all_links_valid then
             (Verdict.fail, "One or more clickable links are broken.")
           else if !(runChecks probe html soup).checks.footer_link_valid
               || !(runChecks probe html soup).checks.footer_address_found then
             (Verdict.fail,
              "Footer is missing a valid clickable website link or full company address.")
           else if !(runChecks probe html soup).checks.image_text_ratio_ok then
             (Verdict.warning, "Image to text ratio is not balanced.")
           else
             (Verdict.pass, "Template passed all basic standard checks.")))
    ∧ (runChecks probeDead "x" exDocTestBroken).checks.is_test_template = true
    ∧ (runChecks probeDead "x" exDocTestBroken).checks.all_links_valid = false
    ∧ (runChecks probeDead "x" exDocTestBroken).verification = Verdict.fail
    ∧ (runChecks probeDead "x" exDocTestBroken).message
        = "The template appears to be a test/dummy template." :=
  ⟨fun probe html soup => runChecks_verdict probe html soup,
   by decide, by decide, by decide, by decide⟩

/-- C2: the verify operation returns a terminal error exactly when the
primary fetch fails: a network failure yields the network error carrying its
cause, a response with any status other than 200 yields the status error
carrying that status code, and a 200 response always yields the complete
result of running the checks. -/
theorem fetch_error_contract :
    ∀ (parse : String → Node) (probe : String → ProbeResult)
      (cause text : String) (code : Nat),
      verify_template parse probe (FetchOutcome.networkError cause)
          = Except.error (VerifyError.fetchNetworkError cause)
      ∧ verify_template parse probe (FetchOutcome.response code text)
          = (if code = 200 then Except.ok (runChecks probe text (parse text))
             else Except.error (VerifyError.fetchStatusError code)) :=
  fun _ _ _ _ _ => ⟨rfl, rfl⟩

/-- C3: `is_test_template` is true exactly when the lowercased collapsed
text content contains one of the seven fixed keywords as a literal
substring; there is no word-boundary requirement, so the word "latest"
matches through its embedded "test". -/
theorem test_keyword_detection :
    ∀ (probe : String → ProbeResult) (html : String) (soup : Node),
      ((runChecks probe html soup).checks.is_test_template
         = TEST_KEYWORDS.any (fun k => strContains (lowerStr (getText soup)) k))
      ∧ TEST_KEYWORDS = ["test", "dummy", "lorem ipsum", "sample template",
                         "placeholder", "example", "this is a test"]
      ∧ strContains "latest" "test" = true
      ∧ (runChecks probeOk "x" exDocLatest).checks.is_test_template = true :=
  fun probe html soup =>
    ⟨runChecks_is_test probe html soup, rfl, by decide, by decide⟩

/-- C4: `image_text_ratio` is the sum of the serialized-markup lengths of
the image elements divided by the length of the extracted text content,
positive infinity when the text length is zero; `image_text_ratio_ok` is
true exactly when the ratio lies in the closed interval from one tenth to
two, and infinity is never ok. -/
theorem image_text_ratio_contract :
    ∀ (probe : String → ProbeResult) (html : String) (soup : Node) (q : ℚ),
      ((runChecks probe html soup).checks.image_text_ratio
         = (if (lowerStr (getText soup)).length = 0 then RatioVal.inf
            else RatioVal.val
              ((((findAllTag "img" soup).map (fun img => (Node.serialize img).length)).sum : ℚ)
                / ((lowerStr (getText soup)).length : ℚ))))
      ∧ ((runChecks probe html soup).checks.image_text_ratio_ok
         = ratioOk ((runChecks probe html soup).checks.image_text_ratio))
      ∧ ratioOk RatioVal.inf = false
      ∧ ratioOk (RatioVal.val q)
          = (decide ((1 : ℚ) / 10 ≤ q) && decide (q ≤ (2 : ℚ))) :=
  fun probe html soup _ =>
    ⟨runChecks_ratio probe html soup, runChecks_ratio_ok probe html soup, rfl, rfl⟩

/-- C5 counterexample: a document whose only href sits on a `<link>` element
refutes the claim that the anchor collection is every element with an href
attribute: the spec's collection holds that dead absolute href, yet the
validators, iterating only `<a>` elements, report no broken link at all. -/
theorem anchor_collection_counterexample :
    specAnchorHrefs exDocLinkElem = ["https://dead.example/style"]
    ∧ anchorHrefs exDocLinkElem = []
    ∧ httpHref "https://dead.example/style" = true
    ∧ probeBroken (probeDead "https://dead.example/style") = true
    ∧ (runChecks probeDead "x" exDocLinkElem).checks.broken_links = []
    ∧ collectBroken probeDead (specAnchorHrefs exDocLinkElem)
        = ["https://dead.example/style"] :=
  ⟨by decide, by decide, by decide, by decide, by decide, by decide⟩

/-- C5 amended: the anchor collection consists of exactly the `<a>` elements
carrying an href attribute, in document order, each href preserved as
written; the global link validator iterates this collection and the footer
validator iterates the footer's own such anchors. -/
theorem anchor_collection_amended :
    ∀ (probe : String → ProbeResult) (html : String) (soup : Node),
      anchorElems soup = soup.descendants.filter (fun d => isTag "a" d && hasHref d)
      ∧ anchorHrefs soup = (anchorElems soup).filterMap (fun d => attrVal d "href")
      ∧ (runChecks probe html soup).checks.broken_links
          = collectBroken probe (anchorHrefs soup)
      ∧ (runChecks probe html soup).checks.footer_link_valid
          = (match findTag? "footer" soup with
             | some f => footerScan probe (anchorHrefs f)
             | none => false) :=
  fun _ _ _ => ⟨rfl, rfl, rfl, rfl⟩

/-- C6: the broken-link list is exactly the document-ordered list of anchor
hrefs that begin with an absolute scheme and whose probe returns a status of
at least 400 or raises; order and duplicates are preserved, no probe outcome
stops the rest, hrefs under other schemes are neither checked nor reported,
and `all_links_valid` holds exactly when the list is empty. -/
theorem global_link_validator_contract :
    ∀ (probe : String → ProbeResult) (html : String) (soup : Node) (n : Nat),
      ((runChecks probe html soup).checks.broken_links
         = ((anchorHrefs soup).filter (fun h => httpHref h)).filter
             (fun h => probeBroken (probe h)))
      ∧ ((runChecks probe html soup).checks.all_links_valid
         = (runChecks probe html soup).checks.broken_links.isEmpty)
      ∧ probeBroken (ProbeResult.status n) = decide (400 ≤ n)
      ∧ probeBroken ProbeResult.exn = true :=
  fun probe html soup _ =>
    ⟨(runChecks_broken probe html soup).trans
       (collectBroken_eq_filter probe (anchorHrefs soup)),
     runChecks_all_valid probe html soup, rfl, rfl⟩

/-- C7: with a footer present, `footer_link_valid` is the result of scanning
the footer's anchor hrefs in document order, succeeding at the first
absolute href whose probe has status below 400; a probe exception is
swallowed (alive is false for it) and the scan continues; with no absolute
footer hrefs at all the scan returns false. -/
theorem footer_link_scan_contract :
    ∀ (probe : String → ProbeResult) (html : String) (soup : Node)
      (h : String) (rest hs : List String),
      ((runChecks probe html soup).checks.footer_link_valid
         = (match findTag? "footer" soup with
            | some f => footerScan probe (anchorHrefs f)
            | none => false))
      ∧ (footerScan probe hs = hs.any (fun x => httpHref x && probeAlive (probe x)))
      ∧ (footerScan probe (h :: rest)
         = (if httpHref h && probeAlive (probe h) then true else footerScan probe rest))
      ∧ footerScan probe [] = false
      ∧ probeAlive ProbeResult.exn = false :=
  fun probe html soup h rest hs =>
    ⟨runChecks_footer_valid probe html soup, footerScan_eq_any probe hs,
     footerScan_cons probe h rest, rfl, rfl⟩

/-- C8: with no footer element both footer flags are definite false values,
and therefore, provided no test keyword was detected and no global link is
broken, the verdict is fail with the footer message. -/
theorem missing_footer_defaults (probe : String → ProbeResult) (html : String)
    (soup : Node) (hf : findTag? "footer" soup = none) :
    (runChecks probe html soup).checks.footer_link_valid = false
    ∧ (runChecks probe html soup).checks.footer_address_found = false
    ∧ ((runChecks probe html soup).checks.is_test_template = false →
       (runChecks probe html soup).checks.broken_links = [] →
       (runChecks probe html soup).verification = Verdict.fail
       ∧ (runChecks probe html soup).message
           = "Footer is missing a valid clickable website link or full company address.") := by
  have hfl : (runChecks probe html soup).checks.footer_link_valid = false := by
    rw [runChecks_footer_valid, hf]
  have hfa : (runChecks probe html soup).checks.footer_address_found = false := by
    rw [runChecks_footer_addr, hf]
  refine ⟨hfl, hfa, fun ht hb => ?_⟩
  have hav : (runChecks probe html soup).checks.all_links_valid = true := by
    rw [runChecks_all_valid, hb]
    rfl
  have hv := runChecks_verdict probe html soup
  rw [ht, hav, hfl] at hv
  simp at hv
  exact ⟨hv.1, hv.2⟩

/-- C8 witness: the footerless keyword-free linkless document evaluates to
both footer flags false and the footer failure verdict. -/
theorem missing_footer_defaults_witness :
    (runChecks probeOk "x" exDocPlain).checks.footer_link_valid = false
    ∧ (runChecks probeOk "x" exDocPlain).checks.footer_address_found = false
    ∧ (runChecks probeOk "x" exDocPlain).verification = Verdict.fail
    ∧ (runChecks probeOk "x" exDocPlain).message
        = "Footer is missing a valid clickable website link or full company address." := by
  have h := missing_footer_defaults probeOk "x" exDocPlain rfl
  have h2 := h.2.2 (by decide) (by decide)
  exact ⟨h.1, h.2.1, h2.1, h2.2⟩

/-- C9: `footer_address_found` tests the footer's space-joined trimmed
original-case text against the fixed address pattern, one match anywhere
sufficing; the sample street address matches the pattern and the text
"Contact us!" does not. -/
theorem footer_address_pattern_contract :
    ∀ (probe : String → ProbeResult) (html : String) (soup : Node),
      ((runChecks probe html soup).checks.footer_address_found
         = (match findTag? "footer" soup with
            | some f => reSearch ADDRESS_REGEX (getText f)
            | none => false))
      ∧ reSearch ADDRESS_REGEX "123 Main Street, Springfield, IL 62704" = true
      ∧ reSearch ADDRESS_REGEX "Contact us!" = false :=
  fun probe html soup =>
    ⟨runChecks_footer_addr probe html soup, by decide, by decide⟩

/-- C10 counterexample: a document that is also a test template refutes the
claim as stated: its footer's only absolute link probes dead, the broken
list is non-empty, yet the verdict message is the test-template message, not
the broken-links message. -/
theorem dead_footer_links_counterexample :
    ((findTag? "footer" exDocTestDeadFooter).map footerHttpHrefs
       = some ["http://dead.example/"])
    ∧ probeBroken (probeDead "http://dead.example/") = true
    ∧ (runChecks probeDead "x" exDocTestDeadFooter).checks.broken_links ≠ []
    ∧ (runChecks probeDead "x" exDocTestDeadFooter).message
        ≠ "One or more clickable links are broken."
    ∧ (runChecks probeDead "x" exDocTestDeadFooter).message
        = "The template appears to be a test/dummy template." :=
  ⟨by decide, by decide, by decide, by decide, by decide⟩

/-- C10 amended: every absolute footer anchor href is also a global anchor
href, so when the footer has at least one absolute link and all of them
probe dead or unreachable, the broken list is non-empty and the footer
failure message cannot be produced; provided the document is additionally
not a test template, the verdict is fail with the broken-links message. -/
theorem dead_footer_links_amended (probe : String → ProbeResult) (html : String)
    (soup f : Node) (hf : findTag? "footer" soup = some f)
    (hne : footerHttpHrefs f ≠ [])
    (hdead : ∀ h ∈ footerHttpHrefs f, probeBroken (probe h) = true) :
    (runChecks probe html soup).checks.broken_links ≠ []
    ∧ (runChecks probe html soup).message
        ≠ "Footer is missing a valid clickable website link or full company address."
    ∧ ((runChecks probe html soup).checks.is_test_template = false →
       (runChecks probe html soup).verification = Verdict.fail
       ∧ (runChecks probe html soup).message
           = "One or more clickable links are broken.") := by
  obtain ⟨h0, hmem⟩ := List.exists_mem_of_ne_nil _ hne
  have hfil := List.mem_filter.1 hmem
  have hsoup : h0 ∈ anchorHrefs soup :=
    anchorHrefs_footer_sub soup f hf h0 hfil.1
  have hbrk : h0 ∈ (runChecks probe html soup).checks.broken_links := by
    rw [runChecks_broken]
    exact mem_collectBroken probe (anchorHrefs soup) h0 hsoup hfil.2 (hdead h0 hmem)
  have hne2 : (runChecks probe html soup).checks.broken_links ≠ [] :=
    List.ne_nil_of_mem hbrk
  have hav : (runChecks probe html soup).checks.all_links_valid = false := by
    rw [runChecks_all_valid]
    cases hbl : (runChecks probe html soup).checks.broken_links with
    | nil => exact absurd hbl hne2
    | cons x xs => rfl
  have hv := runChecks_verdict probe html soup
  refine ⟨hne2, ?_, fun ht => ?_⟩
  · cases ht : (runChecks probe html soup).checks.is_test_template
    · rw [ht, hav] at hv
      simp at hv
      rw [hv.2]
      decide
    · rw [ht] at hv
      simp at hv
      rw [hv.2]
      decide
  · rw [ht, hav] at hv
    simp at hv
    exact ⟨hv.1, hv.2⟩

/-- C10 witness: the keyword-free document with the dead-linked footer has a
non-empty broken list and the broken-links failure verdict. -/
theorem dead_footer_links_witness :
    (runChecks probeDead "x" exDocHelloDeadFooter).checks.broken_links ≠ []
    ∧ (runChecks probeDead "x" exDocHelloDeadFooter).verification = Verdict.fail
    ∧ (runChecks probeDead "x" exDocHelloDeadFooter).message
        = "One or more clickable links are broken." := by
  have h := dead_footer_links_amended probeDead "x" exDocHelloDeadFooter exFooterDead
    rfl (by decide) (by decide)
  have h2 := h.2.2 (by decide)
  exact ⟨h.1, h2.1, h2.2⟩

end EmailVerifier
